import Mathlib

/-!
Verification of the per-file linguistic statistics aggregator of the
ma-thesis-project corpus-analysis pipeline.

The definitions below are shallow embeddings of the Python scripts under
scripts/.  XML token elements become the structure Tok (attribute access
via lxml's Element.get, which returns None for a missing attribute, is
modelled with Option); floating point statistics are modelled exactly over
Rat, with standard deviations over Real (np.std takes a square root).
Each definition's doc comment names the script and function it embeds.
-/

/-- A token element <t>: surface text plus the attributes written by the
dependency-parsing / POS-tagging annotators (scripts 6, 7, 14, 15).
`pos`, `tag`, `head`, `dep_distance` model `token.get(...)`, which yields
None when the attribute is missing.  `id` is the sentence-internal numeric
suffix of the id attribute (the annotators emit ids `...-t1, -t2, ...`). -/
structure Tok where
  text : String
  id : Nat
  pos : Option String
  tag : Option String
  head : Option String
  dep_distance : Option Int
deriving DecidableEq, Repr

/-- A sentence element <s>: an ordered list of tokens. -/
structure Sentence where
  tokens : List Tok
deriving DecidableEq, Repr

/-- A response element <response>: an ordered list of sentences. -/
structure Response where
  sentences : List Sentence
deriving DecidableEq, Repr

/-- All `<t>` descendants of a response, in document order
(`response.findall(".//t")`). -/
def allTokens (r : Response) : List Tok :=
  (r.sentences.map Sentence.tokens).flatten

/-! ## Script 10: plural-noun frequency, English -/

/-- Constant `singular_tags` of 10_plural_noun_frequency_en.py. -/
def singular_tags : List String := ["NN", "NNP"]

/-- Constant `plural_tags` of 10_plural_noun_frequency_en.py. -/
def plural_tags : List String := ["NNS", "NNPS"]

/-- Membership of an optional tag attribute in a tag list; a missing
attribute (None) is in no tag set. -/
def tagIn (t : Option String) (l : List String) : Bool :=
  match t with
  | some s => l.contains s
  | none => false

/-- Counter `noun_counter["singular"]` of `calculate_plural_noun_frequency_per_response`
(10_plural_noun_frequency_en.py, lines 22-38): tokens whose tag attribute is
in `singular_tags`. -/
def singularCountEn (toks : List Tok) : Nat :=
  toks.countP (fun t => tagIn t.tag singular_tags)

/-- Counter `noun_counter["plural"]` of the same function: tokens whose tag attribute
is in `plural_tags`. -/
def pluralCountEn (toks : List Tok) : Nat :=
  toks.countP (fun t => tagIn t.tag plural_tags)

/-- Function `calculate_plural_noun_frequency_per_response` of
10_plural_noun_frequency_en.py: plural / (singular + plural), 0 when the
denominator is 0. -/
def calculate_plural_noun_frequency_en (r : Response) : ℚ :=
  let toks := allTokens r
  let total := singularCountEn toks + pluralCountEn toks
  if total > 0 then (pluralCountEn toks : ℚ) / (total : ℚ) else 0

/-! ## Script 11: plural-noun frequency, Chinese -/

/-- Lexicon `suffix_plural` of 11_plural_noun_frequency_zh.py. -/
def suffix_plural : List String := ["们"]

/-- Lexicon `det_plural` of 11_plural_noun_frequency_zh.py. -/
def det_plural : List String := ["各", "些"]

/-- Lexicon `num_plural` of 11_plural_noun_frequency_zh.py. -/
def num_plural : List String := ["诸", "许多"]

/-- Python's substring test `s in w`. -/
def containsSub (w s : String) : Bool :=
  decide (s.data <:+: w.data)

/-- Counter `total_noun_count` of `calculate_plural_noun_frequency_per_response`
(11_plural_noun_frequency_zh.py, lines 28-51): tokens whose pos attribute is
NOUN. -/
def nounCountZh (toks : List Tok) : Nat :=
  toks.countP (fun t => t.pos == some "NOUN")

/-- Counter `plural_noun_count` of the same function: NOUN tokens containing a
suffix of `suffix_plural`, plus DET tokens in `det_plural`, plus NUM tokens
in `num_plural` (the three elif branches are disjoint on pos). -/
def pluralCountZh (toks : List Tok) : Nat :=
  toks.countP (fun t =>
    (t.pos == some "NOUN" && suffix_plural.any (fun s => containsSub t.text s)) ||
    (t.pos == some "DET" && det_plural.contains t.text) ||
    (t.pos == some "NUM" && num_plural.contains t.text))

/-- Function `calculate_plural_noun_frequency_per_response` of
11_plural_noun_frequency_zh.py: plural count / NOUN count, 0 when there are
no NOUN tokens.  Note the numerator also counts DET/NUM tokens that are not
in the denominator. -/
def calculate_plural_noun_frequency_zh (r : Response) : ℚ :=
  let toks := allTokens r
  if nounCountZh toks > 0 then (pluralCountZh toks : ℚ) / (nounCountZh toks : ℚ) else 0

/-! ## Script 12: passive-voice frequency, English -/

/-- The inner loop of `calculate_passive_frequency_per_response`
(12_passive_voice_frequency_en.py, lines 33-39): scan consecutive token
pairs for pos=AUX immediately followed by tag=VBN; `break` on the first
match makes the loop equivalent to this boolean scan. -/
def isPassiveScan : List Tok → Bool
  | a :: b :: rest =>
      ((a.pos == some "AUX") && (b.tag == some "VBN")) || isPassiveScan (b :: rest)
  | _ => false

/-- Function `calculate_passive_frequency_per_response` of
12_passive_voice_frequency_en.py: passive sentence count / total sentence
count, 0 when the response has no sentences; each sentence contributes at
most once. -/
def calculate_passive_frequency_per_response (r : Response) : ℚ :=
  let pc := r.sentences.countP (fun s => isPassiveScan s.tokens)
  let total := r.sentences.length
  if total > 0 then (pc : ℚ) / (total : ℚ) else 0

/-! ## Script 16: dependency distance, per response -/

/-- The token loop of `calculate_distance`
(16_calculate_dependency_distance.py, lines 19-28): `int(token.get('dep_distance'))`
raises an uncaught TypeError when the attribute is missing, modelled as
`none`; otherwise the distances are summed. -/
def sumDistances : List Tok → Option Int
  | [] => some 0
  | t :: ts =>
    match t.dep_distance, sumDistances ts with
    | some d, some s => some (d + s)
    | _, _ => none

/-- The per-response body of `calculate_distance`
(16_calculate_dependency_distance.py, lines 18-31): average dependency
distance over all tokens of the response, 0 when there are no tokens;
`none` models the uncaught TypeError on a token lacking the attribute. -/
def calculate_distance_response (r : Response) : Option ℚ :=
  match sumDistances (allTokens r) with
  | none => none
  | some total =>
    let n := (allTokens r).length
    some (if n > 0 then (total : ℚ) / (n : ℚ) else 0)

/-! ## Script 17: dependency direction, per response -/

/-- The dict comprehension `token_to_id` of `calculate_dependency_proportions`
(17_calculate_dependency_direction.py, line 23): maps a surface text to the
sentence-internal id of a token with that text; later tokens overwrite
earlier ones, so the last occurrence wins. -/
def token_to_id : List Tok → String → Option Nat
  | [], _ => none
  | t :: ts, k =>
    match token_to_id ts k with
    | some i => some i
    | none => if t.text = k then some t.id else none

/-- The per-token branch of `calculate_dependency_proportions`
(17_calculate_dependency_direction.py, lines 26-33): `some true` is a
"before" contribution (head id greater than token id), `some false` an
"after" contribution, `none` no contribution.  Python's
`if head_id and head_id > token_id` is falsy both when the head text is
unresolved (None) and when the resolved id is 0. -/
def tokenContribution (m : String → Option Nat) (t : Tok) : Option Bool :=
  match t.head with
  | none => none
  | some hd =>
    match m hd with
    | none => none
    | some hid =>
      if hid ≠ 0 then
        (if hid > t.id then some true
         else if hid < t.id then some false
         else none)
      else none

/-- Per-sentence (before, after) counts of `calculate_dependency_proportions`;
the text-to-id map is rebuilt for each sentence. -/
def sentenceDirCounts (s : Sentence) : Nat × Nat :=
  ((s.tokens.countP (fun t => tokenContribution (token_to_id s.tokens) t == some true)),
   (s.tokens.countP (fun t => tokenContribution (token_to_id s.tokens) t == some false)))

/-- Counters `before_count` and `after_count` accumulated over the sentences of one
response (17_calculate_dependency_direction.py, lines 19-33). -/
def responseDirCounts (r : Response) : Nat × Nat :=
  r.sentences.foldl
    (fun acc s => (acc.1 + (sentenceDirCounts s).1, acc.2 + (sentenceDirCounts s).2))
    (0, 0)

/-- The per-response body of `calculate_dependency_proportions`
(17_calculate_dependency_direction.py, lines 35-41): the pair of before/after
proportions, both 0 when no dependency is counted. -/
def calculate_dependency_proportions_response (r : Response) : ℚ × ℚ :=
  let b := (responseDirCounts r).1
  let a := (responseDirCounts r).2
  if b + a > 0 then ((b : ℚ) / ((b : ℚ) + (a : ℚ)), (a : ℚ) / ((b : ℚ) + (a : ℚ)))
  else (0, 0)

/-! ## File-level aggregation (scripts 10/11/12 `process_xml_file`,
script 9 `calculate_stats`): mean, population standard deviation, CV -/

/-- Function `np.mean` on a list of per-response values, modelled exactly over ℚ
(callers guard the empty list). -/
def npMean (l : List ℚ) : ℚ := l.sum / (l.length : ℚ)

/-- The population variance underlying `np.std` (numpy's default ddof=0:
divisor N, not N-1). -/
def npVar (l : List ℚ) : ℚ :=
  ((l.map (fun x => (x - npMean l) ^ 2)).sum) / (l.length : ℚ)

/-- Function `np.std` (population standard deviation, divisor N). -/
noncomputable def npStd (l : List ℚ) : ℝ := Real.sqrt (npVar l)

/-- One file's summary statistics row: response count, mean, population
standard deviation, coefficient of variation. -/
structure FileStats where
  count : Nat
  mean : ℚ
  std : ℝ
  cv : ℝ

/-- The statistics block of `process_xml_file`
(12_passive_voice_frequency_en.py, lines 57-69; identically in scripts 10
and 11, and per tag in 9_calculate_pos_statistics.py, lines 43-51):
mean and population std of the per-response values (0 on an empty list),
and CV = std/mean*100 when the mean is positive, else 0. -/
noncomputable def fileStats (freqs : List ℚ) : FileStats :=
  let avg : ℚ := if freqs.isEmpty then 0 else npMean freqs
  let sd : ℝ := if freqs.isEmpty then 0 else npStd freqs
  let cv : ℝ := if (avg : ℝ) > 0 then sd / (avg : ℝ) * 100 else 0
  ⟨freqs.length, avg, sd, cv⟩

/-! ## Script 20: perplexity / loss statistics -/

/-- The per-file body of `calculate_statistics`
(20_calculate_perplexity_loss_statistics.py, lines 31-44) for one value
series: the values are truncated to the first 1000 entries (`data[:1000]`,
`count = min(len(data), 1000)`) before the mean/std/CV computation. -/
noncomputable def calculate_statistics_file (l : List ℚ) : FileStats :=
  let vals := l.take 1000
  let count := min l.length 1000
  let avg : ℚ := if count > 0 then npMean vals else 0
  let sd : ℝ := if count > 0 then npStd vals else 0
  let cv : ℝ := if (avg : ℝ) > 0 then sd / (avg : ℝ) * 100 else 0
  ⟨count, avg, sd, cv⟩

/-! ## Script 16 (and 17): file-name sort key -/

/-- The four alternatives of the regex `(en_en|zh_en|en_zh|zh_zh)_(\d+)`,
in alternation order. -/
def langAlternatives : List (List Char) :=
  ["en_en".data, "zh_en".data, "en_zh".data, "zh_zh".data]

/-- Value of a nonempty digit run, as `int` of the matched group. -/
def digitsToNat (ds : List Char) : Nat :=
  ds.foldl (fun acc c => 10 * acc + (c.toNat - '0'.toNat)) 0

/-- Try to match one regex alternative followed by `_` and a nonempty digit
run at the head of `cs` (the regex engine's attempt at one position). -/
def tryMatchAt (alt : List Char) (cs : List Char) : Option (String × Nat) :=
  if alt.isPrefixOf cs then
    match cs.drop alt.length with
    | '_' :: rest =>
      let ds := rest.takeWhile Char.isDigit
      if ds.isEmpty then none
      else some (⟨alt⟩, digitsToNat ds)
    | _ => none
  else none

/-- Search `re.search` for `(en_en|zh_en|en_zh|zh_zh)_(\d+)`: leftmost match wins;
at each position the alternatives are tried in order (at most one 5-letter
alternative can match at a given position), and the digit group is greedy. -/
def searchKey : List Char → Option (String × Nat)
  | [] => none
  | c :: cs =>
    match (langAlternatives.filterMap (fun alt => tryMatchAt alt (c :: cs))).head? with
    | some k => some k
    | none => searchKey cs

/-- Function `extract_key` of 16_calculate_dependency_distance.py (lines 45-53,
identical in 17_calculate_dependency_direction.py): the (language-pair,
number) sort key, `("", 0)` when the name does not match the pattern. -/
def extract_key (fn : String) : String × Nat :=
  match searchKey fn.data with
  | some k => k
  | none => ("", 0)

/-- Python's string `<` (lexicographic by code point). -/
def strLtB : List Char → List Char → Bool
  | [], [] => false
  | [], _ :: _ => true
  | _ :: _, [] => false
  | x :: xs, y :: ys =>
    if x.toNat < y.toNat then true
    else if y.toNat < x.toNat then false
    else strLtB xs ys

/-- Python's `<` on the `(str, int)` keys returned by `extract_key`. -/
def keyLt (a b : String × Nat) : Bool :=
  strLtB a.1.data b.1.data || (a.1 == b.1 && decide (a.2 < b.2))

/-- Stable insertion of `x` into a list already sorted by `key`: `x` goes
after every earlier element whose key is not greater, which is how Python's
stable `sorted` orders equal keys. -/
def insertByKey {κ : Type} (key : String → κ) (lt : κ → κ → Bool) (x : String) :
    List String → List String
  | [] => [x]
  | y :: ys =>
    if lt (key x) (key y) then x :: y :: ys
    else y :: insertByKey key lt x ys

/-- Stable sort by key (the semantics of Python's `sorted(l, key=...)`). -/
def sortByKey {κ : Type} (key : String → κ) (lt : κ → κ → Bool)
    (l : List String) : List String :=
  l.foldl (fun acc x => insertByKey key lt x acc) []

/-- Function `sort_files` of 16_calculate_dependency_distance.py (lines 56-58):
`sorted(file_list, key=extract_key)`. -/
def sort_files (l : List String) : List String :=
  sortByKey extract_key keyLt l

/-! ## Script 23: `custom_sort` -/

/-- The `order` dict of `custom_sort`
(23_dependency_distance_visualization.py, line 57), with the dict's
`.get(lang_group, 999)` default. -/
def langOrder (s : String) : Nat :=
  if s = "en_en" then 0
  else if s = "zh_en" then 1
  else if s = "en_zh" then 2
  else if s = "zh_zh" then 3
  else 999

/-- Function `custom_sort` of 23_dependency_distance_visualization.py (lines 35-59)
in separate mode (`is_merged=False`): the key is `(num, order)` — numeric
suffix first, language-pair order second — with `(999, 999)` for
non-matching names. -/
def custom_sort_sep (fn : String) : Nat × Nat :=
  match searchKey fn.data with
  | some (lang, num) => (num, langOrder lang)
  | none => (999, 999)

/-- Python's `<` on the `(int, int)` keys of `custom_sort`. -/
def natPairLt (a b : Nat × Nat) : Bool :=
  decide (a.1 < b.1) || (a.1 == b.1 && decide (a.2 < b.2))

/-- Call `sorted(..., key=lambda x: custom_sort(x, False))` as used on file lists
in 23_dependency_distance_visualization.py (lines 69 and 74). -/
def sort_files_custom (l : List String) : List String :=
  sortByKey custom_sort_sep natPairLt l

/-! ## Script 10: batch loop over files -/

/-- Test `.endswith(".xml")` on a file name. -/
def endsWithXml (s : String) : Bool :=
  ".xml".data.isSuffixOf s.data

/-- Function `process_xml_file` of 10_plural_noun_frequency_en.py (lines 40-57):
per-response plural-noun frequencies reduced to one statistics row. -/
noncomputable def process_xml_file_plural (resps : List Response) : FileStats :=
  fileStats (resps.map calculate_plural_noun_frequency_en)

/-- The batch loop `process_all_files` of 10_plural_noun_frequency_en.py
(lines 59-79).  The directory listing is a list of (name, content) pairs;
`none` content models a file that `etree.parse` fails to load or parse.
The loop has no try/except, so the first failing .xml file raises out of
the whole loop — modelled as `Except.error` naming that file; non-.xml
names are skipped by the `endswith` filter. -/
noncomputable def process_all_files :
    List (String × Option (List Response)) → Except String (List (String × FileStats))
  | [] => .ok []
  | (name, dat) :: rest =>
    if endsWithXml name then
      match dat with
      | none => .error name
      | some resps =>
        match process_all_files rest with
        | .ok rows => .ok ((name, process_xml_file_plural resps) :: rows)
        | .error e => .error e
    else process_all_files rest

/-! ## Concrete fixtures used by witnesses and counterexamples -/

/-- An empty response: no sentences, no tokens. -/
def emptyResp : Response := ⟨[]⟩

/-- A response of one sentence with one NOUN token, one DET 各 and one
DET 些: the zh plural numerator counts 2 while the NOUN denominator is 1. -/
def zhDetResp : Response :=
  ⟨[⟨[⟨"猫", 1, some "NOUN", none, none, none⟩,
      ⟨"各", 2, some "DET", none, none, none⟩,
      ⟨"些", 3, some "DET", none, none, none⟩]⟩]⟩

/-- Two mutually dependent tokens: A's head is B (id 2 > 1, "before"),
B's head is A (id 1 < 2, "after"). -/
def dirToks : List Tok :=
  [⟨"A", 1, none, none, some "B", none⟩,
   ⟨"B", 2, none, none, some "A", none⟩]

/-- A one-sentence response over `dirToks`. -/
def dirResp : Response := ⟨[⟨dirToks⟩]⟩

/-- A token with no head attribute. -/
def headlessTok : Tok := ⟨"C", 3, none, none, none, none⟩

/-! ## C1 -/

/-- C1: the claim says the sorter orders by category key in the fixed order
en-en, zh-en, en-zh, zh-zh, then by numeric suffix, with non-matching names
last.  The code diverges: `sort_files` (scripts 16/17) compares the raw
language-pair strings, so the lexicographic order en_en, en_zh, zh_en,
zh_zh results and the default key ("", 0) sorts non-matching names first;
`custom_sort` (script 23, separate mode) keys on (number, category), so the
numeric suffix dominates the category.  The spec's own §8 scenario (last
conjunct) cannot distinguish the orders and passes anyway. -/
theorem c1_sorter_divergence :
    sort_files ["en_zh_1.xml", "zh_en_1.xml"] = ["en_zh_1.xml", "zh_en_1.xml"] ∧
    sort_files ["en_en_1.xml", "notes.txt"] = ["notes.txt", "en_en_1.xml"] ∧
    sort_files_custom ["zh_en_1.xml", "en_en_2.xml"] = ["zh_en_1.xml", "en_en_2.xml"] ∧
    sort_files ["zh_zh_2.xml", "en_en_1.xml", "zh_en_1.xml"] =
      ["en_en_1.xml", "zh_en_1.xml", "zh_zh_2.xml"] := by
  decide

/-! ## C3 -/

/-- C3: every per-response metric with a zero denominator evaluates to
exactly 0 — never an error or an undefined value: the English and Chinese
plural-noun frequencies, the passive-voice frequency, the dependency
distance (which returns `some 0`, not an error, on an empty token list) and
the dependency-direction proportions. -/
theorem c3_zero_denominator :
    (∀ r : Response, singularCountEn (allTokens r) + pluralCountEn (allTokens r) = 0 →
      calculate_plural_noun_frequency_en r = 0) ∧
    (∀ r : Response, nounCountZh (allTokens r) = 0 →
      calculate_plural_noun_frequency_zh r = 0) ∧
    (∀ r : Response, r.sentences.length = 0 →
      calculate_passive_frequency_per_response r = 0) ∧
    (∀ r : Response, (allTokens r).length = 0 →
      calculate_distance_response r = some 0) ∧
    (∀ r : Response, (responseDirCounts r).1 + (responseDirCounts r).2 = 0 →
      calculate_dependency_proportions_response r = (0, 0)) := by
  refine ⟨fun r h => ?_, fun r h => ?_, fun r h => ?_, fun r h => ?_, fun r h => ?_⟩
  · show (if singularCountEn (allTokens r) + pluralCountEn (allTokens r) > 0
          then (pluralCountEn (allTokens r) : ℚ) /
            ((singularCountEn (allTokens r) + pluralCountEn (allTokens r) : ℕ) : ℚ)
          else 0) = 0
    rw [if_neg]
    omega
  · show (if nounCountZh (allTokens r) > 0
          then (pluralCountZh (allTokens r) : ℚ) / (nounCountZh (allTokens r) : ℚ)
          else 0) = 0
    rw [if_neg]
    omega
  · show (if r.sentences.length > 0
          then ((r.sentences.countP (fun s => isPassiveScan s.tokens) : ℕ) : ℚ) /
            (r.sentences.length : ℚ)
          else 0) = 0
    rw [if_neg]
    omega
  · have hnil : allTokens r = [] := List.length_eq_zero.mp h
    show (match sumDistances (allTokens r) with
          | none => none
          | some total =>
            some (if (allTokens r).length > 0
              then (total : ℚ) / ((allTokens r).length : ℚ) else 0)) = some 0
    rw [hnil]
    rfl
  · show (if (responseDirCounts r).1 + (responseDirCounts r).2 > 0
          then (((responseDirCounts r).1 : ℚ) /
                  (((responseDirCounts r).1 : ℚ) + ((responseDirCounts r).2 : ℚ)),
                ((responseDirCounts r).2 : ℚ) /
                  (((responseDirCounts r).1 : ℚ) + ((responseDirCounts r).2 : ℚ)))
          else (0, 0)) = (0, 0)
    rw [if_neg]
    omega

/-- Witness for C3 at the empty response: every denominator is 0 there and
every metric returns 0. -/
theorem c3_zero_denominator_witness :
    calculate_plural_noun_frequency_en emptyResp = 0 ∧
    calculate_plural_noun_frequency_zh emptyResp = 0 ∧
    calculate_passive_frequency_per_response emptyResp = 0 ∧
    calculate_distance_response emptyResp = some 0 ∧
    calculate_dependency_proportions_response emptyResp = (0, 0) :=
  ⟨c3_zero_denominator.1 emptyResp (by decide),
   c3_zero_denominator.2.1 emptyResp (by decide),
   c3_zero_denominator.2.2.1 emptyResp (by decide),
   c3_zero_denominator.2.2.2.1 emptyResp (by decide),
   c3_zero_denominator.2.2.2.2 emptyResp (by decide)⟩

/-! ## C5 -/

/-- C5: the dependency-direction scorer returns proportions that sum to 1
whenever the before+after count is positive and are both 0 otherwise, and a
token with a missing head attribute, an unresolved head text, or a head
resolving to its own id contributes to neither count. -/
theorem c5_direction_proportions :
    (∀ r : Response, 0 < (responseDirCounts r).1 + (responseDirCounts r).2 →
      (calculate_dependency_proportions_response r).1 +
        (calculate_dependency_proportions_response r).2 = 1) ∧
    (∀ r : Response, (responseDirCounts r).1 + (responseDirCounts r).2 = 0 →
      calculate_dependency_proportions_response r = (0, 0)) ∧
    (∀ (toks : List Tok) (t : Tok),
      (t.head = none → tokenContribution (token_to_id toks) t = none) ∧
      (∀ hd, t.head = some hd → token_to_id toks hd = none →
        tokenContribution (token_to_id toks) t = none) ∧
      (∀ hd, t.head = some hd → token_to_id toks hd = some t.id →
        tokenContribution (token_to_id toks) t = none)) := by
  refine ⟨fun r h => ?_, fun r h => ?_, fun toks t => ⟨fun h => ?_, fun hd h1 h2 => ?_, fun hd h1 h2 => ?_⟩⟩
  · have hpos : (0 : ℚ) < ((responseDirCounts r).1 : ℚ) + ((responseDirCounts r).2 : ℚ) := by
      exact_mod_cast h
    show (if (responseDirCounts r).1 + (responseDirCounts r).2 > 0
          then (((responseDirCounts r).1 : ℚ) /
                  (((responseDirCounts r).1 : ℚ) + ((responseDirCounts r).2 : ℚ)),
                ((responseDirCounts r).2 : ℚ) /
                  (((responseDirCounts r).1 : ℚ) + ((responseDirCounts r).2 : ℚ)))
          else (0, 0)).1 +
         (if (responseDirCounts r).1 + (responseDirCounts r).2 > 0
          then (((responseDirCounts r).1 : ℚ) /
                  (((responseDirCounts r).1 : ℚ) + ((responseDirCounts r).2 : ℚ)),
                ((responseDirCounts r).2 : ℚ) /
                  (((responseDirCounts r).1 : ℚ) + ((responseDirCounts r).2 : ℚ)))
          else (0, 0)).2 = 1
    rw [if_pos h]
    rw [div_add_div_same, div_self (ne_of_gt hpos)]
  · show (if (responseDirCounts r).1 + (responseDirCounts r).2 > 0
          then (((responseDirCounts r).1 : ℚ) /
                  (((responseDirCounts r).1 : ℚ) + ((responseDirCounts r).2 : ℚ)),
                ((responseDirCounts r).2 : ℚ) /
                  (((responseDirCounts r).1 : ℚ) + ((responseDirCounts r).2 : ℚ)))
          else (0, 0)) = (0, 0)
    rw [if_neg]
    omega
  · simp [tokenContribution, h]
  · simp [tokenContribution, h1, h2]
  · simp [tokenContribution, h1, h2]

/-- Witness for C5: on `dirResp` the counts are (1, 1), so the proportions
sum to 1; a headless token contributes to neither count. -/
theorem c5_direction_proportions_witness :
    (calculate_dependency_proportions_response dirResp).1 +
      (calculate_dependency_proportions_response dirResp).2 = 1 ∧
    tokenContribution (token_to_id dirToks) headlessTok = none :=
  ⟨c5_direction_proportions.1 dirResp (by decide),
   (c5_direction_proportions.2.2 dirToks headlessTok).1 rfl⟩

/-! ## C2 -/

/-- C2 counterexample: on `zhDetResp` the Chinese plural-noun scorer counts
the two plural determiners in the numerator but only the single NOUN token
in the denominator, returning 2 — outside [0,1], so not every per-response
scorer returns a scalar in [0,1]. -/
theorem c2_counterexample :
    calculate_plural_noun_frequency_zh zhDetResp = 2 ∧
    ¬ calculate_plural_noun_frequency_zh zhDetResp ≤ 1 := by
  have h1 : nounCountZh (allTokens zhDetResp) = 1 := by decide
  have h2 : pluralCountZh (allTokens zhDetResp) = 2 := by decide
  have hv : calculate_plural_noun_frequency_zh zhDetResp = 2 := by
    show (if nounCountZh (allTokens zhDetResp) > 0
          then (pluralCountZh (allTokens zhDetResp) : ℚ) / (nounCountZh (allTokens zhDetResp) : ℚ)
          else 0) = 2
    rw [h1, h2]
    norm_num
  refine ⟨hv, ?_⟩
  rw [hv]
  norm_num

/-- If every token's dep_distance attribute is a nonnegative integer, the
summed distance is nonnegative. -/
theorem sumDistances_nonneg (ts : List Tok)
    (hall : ∀ t ∈ ts, ∀ d : ℤ, t.dep_distance = some d → 0 ≤ d) :
    ∀ s : ℤ, sumDistances ts = some s → 0 ≤ s := by
  induction ts with
  | nil =>
    intro s hs
    simp [sumDistances] at hs
    omega
  | cons t ts ih =>
    intro s hs
    rw [sumDistances] at hs
    rcases hd : t.dep_distance with _ | d
    · rw [hd] at hs
      cases hs
    · rw [hd] at hs
      rcases hrest : sumDistances ts with _ | s2
      · rw [hrest] at hs
        cases hs
      · rw [hrest] at hs
        have h1 : 0 ≤ d := hall t (by simp) d hd
        have h2 : 0 ≤ s2 := ih (fun u hu => hall u (by simp [hu])) s2 hrest
        have : d + s2 = s := by cases hs; rfl
        omega

/-- Unfolding equation for the English plural-noun scorer. -/
theorem plural_en_eq (r : Response) :
    calculate_plural_noun_frequency_en r =
      if singularCountEn (allTokens r) + pluralCountEn (allTokens r) > 0
      then (pluralCountEn (allTokens r) : ℚ) /
        ((singularCountEn (allTokens r) + pluralCountEn (allTokens r) : ℕ) : ℚ)
      else 0 := rfl

/-- Unfolding equation for the passive-voice scorer. -/
theorem passive_eq (r : Response) :
    calculate_passive_frequency_per_response r =
      if r.sentences.length > 0
      then ((r.sentences.countP (fun s => isPassiveScan s.tokens) : ℕ) : ℚ) /
        (r.sentences.length : ℚ)
      else 0 := rfl

/-- Unfolding equation for the Chinese plural-noun scorer. -/
theorem plural_zh_eq (r : Response) :
    calculate_plural_noun_frequency_zh r =
      if nounCountZh (allTokens r) > 0
      then (pluralCountZh (allTokens r) : ℚ) / (nounCountZh (allTokens r) : ℚ)
      else 0 := rfl

/-- Unfolding equation for the dependency-direction proportions. -/
theorem dirProps_eq (r : Response) :
    calculate_dependency_proportions_response r =
      if (responseDirCounts r).1 + (responseDirCounts r).2 > 0
      then (((responseDirCounts r).1 : ℚ) /
              (((responseDirCounts r).1 : ℚ) + ((responseDirCounts r).2 : ℚ)),
            ((responseDirCounts r).2 : ℚ) /
              (((responseDirCounts r).1 : ℚ) + ((responseDirCounts r).2 : ℚ)))
      else (0, 0) := rfl

/-- C2 amended: each scorer returns nonnegative scalars; the English
plural-noun, passive-voice and dependency-direction scorers lie in [0,1]
(their numerators count a subset of their denominators), but the Chinese
plural-noun frequency is only bounded below by 0 (its numerator is not a
subcount of its denominator) and the per-response dependency distance is a
nonnegative mean of integer distances, not bounded by 1. -/
theorem c2_scorer_ranges :
    (∀ r : Response, 0 ≤ calculate_plural_noun_frequency_en r ∧
      calculate_plural_noun_frequency_en r ≤ 1) ∧
    (∀ r : Response, 0 ≤ calculate_passive_frequency_per_response r ∧
      calculate_passive_frequency_per_response r ≤ 1) ∧
    (∀ r : Response,
      0 ≤ (calculate_dependency_proportions_response r).1 ∧
      (calculate_dependency_proportions_response r).1 ≤ 1 ∧
      0 ≤ (calculate_dependency_proportions_response r).2 ∧
      (calculate_dependency_proportions_response r).2 ≤ 1) ∧
    (∀ r : Response, 0 ≤ calculate_plural_noun_frequency_zh r) ∧
    (∀ (r : Response) (q : ℚ), calculate_distance_response r = some q →
      (∀ t ∈ allTokens r, ∀ d : ℤ, t.dep_distance = some d → 0 ≤ d) →
      0 ≤ q) := by
  have ratio_mem : ∀ num den : ℕ, num ≤ den →
      (0 : ℚ) ≤ (if den > 0 then (num : ℚ) / (den : ℚ) else 0) ∧
      (if den > 0 then (num : ℚ) / (den : ℚ) else 0) ≤ 1 := by
    intro num den hle
    by_cases h : den > 0
    · have hdpos : (0 : ℚ) < (den : ℚ) := by exact_mod_cast h
      rw [if_pos h]
      constructor
      · positivity
      · rw [div_le_one hdpos]
        exact_mod_cast hle
    · rw [if_neg h]
      norm_num
  refine ⟨fun r => ?_, fun r => ?_, fun r => ?_, fun r => ?_, fun r q hq hall => ?_⟩
  · rw [plural_en_eq]
    exact ratio_mem _ _ (by omega)
  · rw [passive_eq]
    exact ratio_mem _ _ (List.countP_le_length _)
  · rw [dirProps_eq]
    by_cases h : (responseDirCounts r).1 + (responseDirCounts r).2 > 0
    · have hpos : (0 : ℚ) < ((responseDirCounts r).1 : ℚ) + ((responseDirCounts r).2 : ℚ) := by
        exact_mod_cast h
      rw [if_pos h]
      have hb : (0 : ℚ) ≤ ((responseDirCounts r).1 : ℚ) := by positivity
      have ha : (0 : ℚ) ≤ ((responseDirCounts r).2 : ℚ) := by positivity
      refine ⟨by positivity, ?_, by positivity, ?_⟩
      · rw [div_le_one hpos]
        linarith
      · rw [div_le_one hpos]
        linarith
    · rw [if_neg h]
      norm_num
  · rw [plural_zh_eq]
    by_cases h : nounCountZh (allTokens r) > 0
    · rw [if_pos h]
      positivity
    · rw [if_neg h]
  · have hq' := hq
    unfold calculate_distance_response at hq'
    rcases hs : sumDistances (allTokens r) with _ | total
    · rw [hs] at hq'
      cases hq'
    · rw [hs] at hq'
      have hqq : (if (allTokens r).length > 0
          then (total : ℚ) / ((allTokens r).length : ℚ) else 0) = q :=
        Option.some.inj hq'
      have htot : 0 ≤ total := sumDistances_nonneg (allTokens r) hall total hs
      rw [← hqq]
      by_cases hn : (allTokens r).length > 0
      · rw [if_pos hn]
        apply div_nonneg
        · exact_mod_cast htot
        · positivity
      · rw [if_neg hn]

/-- Witness for C2 amended at the empty response: the bounded scorers are
evaluated there, and the distance conjunct's hypotheses are discharged at
the empty token list (distance `some 0`, vacuously nonnegative inputs). -/
theorem c2_scorer_ranges_witness :
    (0 ≤ calculate_plural_noun_frequency_en emptyResp ∧
      calculate_plural_noun_frequency_en emptyResp ≤ 1) ∧
    0 ≤ (0 : ℚ) :=
  ⟨c2_scorer_ranges.1 emptyResp,
   c2_scorer_ranges.2.2.2.2 emptyResp 0 rfl
     (by intro t ht; simp [allTokens, emptyResp] at ht)⟩

/-! ## C9 -/

/-- The boolean adjacent-pair scan is true exactly when some token with
pos AUX is immediately followed by a token with tag VBN. -/
theorem isPassiveScan_iff (l : List Tok) :
    isPassiveScan l = true ↔
      ∃ i : ℕ, ∃ h : i + 1 < l.length,
        (l.get ⟨i, Nat.lt_of_succ_lt h⟩).pos = some "AUX" ∧
        (l.get ⟨i + 1, h⟩).tag = some "VBN" := by
  induction l with
  | nil =>
    simp [isPassiveScan]
  | cons a tl ih =>
    cases tl with
    | nil =>
      simp [isPassiveScan]
    | cons b rest =>
      rw [isPassiveScan]
      simp only [Bool.or_eq_true, Bool.and_eq_true, beq_iff_eq]
      rw [ih]
      constructor
      · rintro (⟨hpos, htag⟩ | ⟨i, h, hp, ht⟩)
        · exact ⟨0, by simp, hpos, htag⟩
        · refine ⟨i + 1, by simpa using Nat.succ_lt_succ h, ?_, ?_⟩
          · simpa [List.get_cons_succ] using hp
          · simpa [List.get_cons_succ] using ht
      · rintro ⟨i, h, hp, ht⟩
        cases i with
        | zero =>
          exact Or.inl ⟨hp, ht⟩
        | succ j =>
          refine Or.inr ⟨j, by simpa using Nat.lt_of_succ_lt_succ h, ?_, ?_⟩
          · simpa [List.get_cons_succ] using hp
          · simpa [List.get_cons_succ] using ht

/-- The spec's §8 passive-voice scenario sentence: The/DET report/NOUN
was/AUX filed/VBN, with the fine tags the English tagger would emit. -/
def scenarioTokens : List Tok :=
  [⟨"The", 1, some "DET", some "DT", none, none⟩,
   ⟨"report", 2, some "NOUN", some "NN", none, none⟩,
   ⟨"was", 3, some "AUX", some "VBD", none, none⟩,
   ⟨"filed", 4, some "VERB", some "VBN", none, none⟩]

/-- A one-sentence response around the scenario sentence. -/
def scenarioResp : Response := ⟨[⟨scenarioTokens⟩]⟩

/-- C9: the passive-voice frequency is the number of sentences containing
an AUX-tagged token immediately followed by a VBN-tagged token, divided by
the total number of sentences; a sentence counts at most once however many
matches it has, and the scenario sentence The/DET report/NOUN was/AUX
filed/VBN is a match. -/
theorem c9_passive_frequency :
    (∀ s : Sentence, isPassiveScan s.tokens = true ↔
      ∃ i : ℕ, ∃ h : i + 1 < s.tokens.length,
        (s.tokens.get ⟨i, Nat.lt_of_succ_lt h⟩).pos = some "AUX" ∧
        (s.tokens.get ⟨i + 1, h⟩).tag = some "VBN") ∧
    (∀ r : Response, 0 < r.sentences.length →
      calculate_passive_frequency_per_response r =
        ((r.sentences.countP (fun s => isPassiveScan s.tokens) : ℕ) : ℚ) /
          (r.sentences.length : ℚ)) ∧
    (∀ r : Response,
      r.sentences.countP (fun s => isPassiveScan s.tokens) ≤ r.sentences.length) ∧
    isPassiveScan scenarioTokens = true := by
  refine ⟨fun s => isPassiveScan_iff s.tokens, fun r h => ?_, fun r => List.countP_le_length _, by decide⟩
  rw [passive_eq, if_pos h]

/-- Witness for C9 at the scenario response: one sentence, one match,
frequency 1/1. -/
theorem c9_passive_frequency_witness :
    calculate_passive_frequency_per_response scenarioResp =
      ((scenarioResp.sentences.countP (fun s => isPassiveScan s.tokens) : ℕ) : ℚ) /
        (scenarioResp.sentences.length : ℚ) :=
  c9_passive_frequency.2.1 scenarioResp (by decide)

/-! ## C7 -/

/-- A response whose single token carries POS tags but no dep_distance
attribute. -/
def c7resp : Response :=
  ⟨[⟨[⟨"cats", 1, some "NOUN", some "NNS", none, none⟩]⟩]⟩

/-- A response whose single token carries a dep_distance attribute. -/
def distResp : Response :=
  ⟨[⟨[⟨"dog", 1, some "NOUN", some "NN", none, some 2⟩]⟩]⟩

/-- C7 counterexample: on a response whose token lacks the dep_distance
attribute, the dependency-distance computation fails (uncaught TypeError
from `int(None)`, modelled as `none`) instead of excluding the token — so
not every metric handles a missing attribute locally.  The same response is
handled fine by the tag-membership plural-noun scorer (second conjunct). -/
theorem c7_counterexample :
    calculate_distance_response c7resp = none ∧
    calculate_plural_noun_frequency_en c7resp = 1 := by
  constructor
  · rfl
  · rw [plural_en_eq]
    have h1 : singularCountEn (allTokens c7resp) = 0 := by decide
    have h2 : pluralCountEn (allTokens c7resp) = 1 := by decide
    rw [h1, h2]
    norm_num

/-- Tokens without a tag attribute are invisible to a tag-set count:
filtering them out does not change the count. -/
theorem countP_tagIn_filter (toks : List Tok) (l : List String) :
    toks.countP (fun t => tagIn t.tag l) =
      (toks.filter (fun t => t.tag.isSome)).countP (fun t => tagIn t.tag l) := by
  rw [List.countP_filter]
  apply List.countP_congr
  intro t _
  cases ht : t.tag <;> simp [tagIn, ht]

/-- A token list containing a token without dep_distance makes the summed
distance fail. -/
theorem sumDistances_missing (ts : List Tok)
    (h : ∃ t ∈ ts, t.dep_distance = none) : sumDistances ts = none := by
  induction ts with
  | nil =>
    obtain ⟨t, ht, _⟩ := h
    cases ht
  | cons t ts ih =>
    obtain ⟨u, hu, hnone⟩ := h
    rw [sumDistances]
    rcases List.mem_cons.mp hu with h | h
    · subst h
      rw [hnone]
    · rw [ih ⟨u, h, hnone⟩]
      rcases t.dep_distance with _ | d <;> rfl

/-- When every token has a dep_distance attribute the summed distance
succeeds. -/
theorem sumDistances_total (ts : List Tok)
    (h : ∀ t ∈ ts, t.dep_distance.isSome = true) : (sumDistances ts).isSome = true := by
  induction ts with
  | nil => rfl
  | cons t ts ih =>
    rw [sumDistances]
    have h1 : t.dep_distance.isSome = true := h t (by simp)
    rcases hd : t.dep_distance with _ | d
    · rw [hd] at h1
      cases h1
    · have h2 := ih (fun u hu => h u (by simp [hu]))
      rcases hs : sumDistances ts with _ | s
      · rw [hs] at h2
        cases h2
      · rfl

/-- C7 amended: metrics that test tag membership treat a token with a
missing tag attribute as tag-absent, excluding it from the tag-keyed counts
(numerator and same-tag-keyed denominator) locally and non-fatally; the
dependency-distance computation instead requires the dep_distance attribute
on every token, failing on any token that lacks it and succeeding exactly
when all tokens carry it. -/
theorem c7_missing_attribute :
    (∀ toks : List Tok,
      singularCountEn toks = singularCountEn (toks.filter (fun t => t.tag.isSome)) ∧
      pluralCountEn toks = pluralCountEn (toks.filter (fun t => t.tag.isSome))) ∧
    (∀ r : Response, (∃ t ∈ allTokens r, t.dep_distance = none) →
      calculate_distance_response r = none) ∧
    (∀ r : Response, (∀ t ∈ allTokens r, t.dep_distance.isSome = true) →
      (calculate_distance_response r).isSome = true) := by
  refine ⟨fun toks =>
    ⟨countP_tagIn_filter toks singular_tags, countP_tagIn_filter toks plural_tags⟩,
    fun r h => ?_, fun r h => ?_⟩
  · unfold calculate_distance_response
    rw [sumDistances_missing (allTokens r) h]
  · unfold calculate_distance_response
    have h2 := sumDistances_total (allTokens r) h
    rcases hs : sumDistances (allTokens r) with _ | s
    · rw [hs] at h2
      cases h2
    · rfl

/-- Witness for C7 amended: the distance computation fails on the
attribute-less token of `c7resp` and succeeds on `distResp`. -/
theorem c7_missing_attribute_witness :
    calculate_distance_response c7resp = none ∧
    (calculate_distance_response distResp).isSome = true :=
  ⟨c7_missing_attribute.2.1 c7resp (by decide),
   c7_missing_attribute.2.2 distResp (by decide)⟩

/-! ## C10 -/

/-- The dict-comprehension head lookup resolves a text key to the id of the
last token in the sentence bearing that text (later dict insertions
overwrite earlier ones). -/
theorem token_to_id_eq_getLast (toks : List Tok) (k : String) :
    token_to_id toks k =
      ((toks.filter (fun t => t.text == k)).getLast?).map Tok.id := by
  induction toks with
  | nil => rfl
  | cons t ts ih =>
    rw [token_to_id, ih, List.filter_cons]
    rcases hlast : (ts.filter (fun t => t.text == k)).getLast? with _ | u
    · have hnil := List.getLast?_eq_none_iff.mp hlast
      by_cases ht : t.text = k <;> simp [hnil, ht]
    · have hne : ts.filter (fun t => t.text == k) ≠ [] := by
        intro hc
        rw [hc] at hlast
        cases hlast
      by_cases ht : t.text = k
      · rcases hfe : ts.filter (fun t => t.text == k) with _ | ⟨v, vs⟩
        · exact absurd hfe hne
        · rw [hfe] at hlast
          simp [hfe, hlast, ht, List.getLast?_cons_cons]
      · simp [hlast, ht]

/-- C10: head resolution is by surface text, not by head index — the head
id used for a token is the id of the last token in the sentence whose text
equals the token's head attribute; a token whose head text matches no token
in the sentence, or whose resolved head id equals its own id, contributes
to neither direction count. -/
theorem c10_head_resolution :
    (∀ (toks : List Tok) (k : String),
      token_to_id toks k = ((toks.filter (fun t => t.text == k)).getLast?).map Tok.id) ∧
    (∀ (toks : List Tok) (t : Tok) (hd : String), t.head = some hd →
      toks.filter (fun u => u.text == hd) = [] →
      tokenContribution (token_to_id toks) t = none) ∧
    (∀ (toks : List Tok) (t : Tok) (hd : String), t.head = some hd →
      token_to_id toks hd = some t.id →
      tokenContribution (token_to_id toks) t = none) := by
  refine ⟨token_to_id_eq_getLast, fun toks t hd h1 h2 => ?_, fun toks t hd h1 h2 => ?_⟩
  · have hnone : token_to_id toks hd = none := by
      rw [token_to_id_eq_getLast toks hd, h2]
      rfl
    simp [tokenContribution, h1, hnone]
  · simp [tokenContribution, h1, h2]

/-- Two tokens: the second token's head text is its own text, so it
resolves to its own id. -/
def c10Toks : List Tok :=
  [⟨"A", 1, none, none, some "B", none⟩,
   ⟨"B", 2, none, none, some "B", none⟩]

/-- The self-referential token of `c10Toks`. -/
def selfTok : Tok := ⟨"B", 2, none, none, some "B", none⟩

/-- A token whose head text Z occurs nowhere in `c10Toks`. -/
def orphanTok : Tok := ⟨"D", 4, none, none, some "Z", none⟩

/-- Witness for C10: the self-referential token and the unresolvable token
contribute to neither direction count. -/
theorem c10_head_resolution_witness :
    tokenContribution (token_to_id c10Toks) selfTok = none ∧
    tokenContribution (token_to_id c10Toks) orphanTok = none :=
  ⟨c10_head_resolution.2.2 c10Toks selfTok "B" rfl (by decide),
   c10_head_resolution.2.1 c10Toks orphanTok "Z" rfl (by decide)⟩

/-! ## C4 -/

/-- Count projection of the aggregator. -/
theorem fileStats_count (l : List ℚ) : (fileStats l).count = l.length := rfl

/-- Mean projection of the aggregator. -/
theorem fileStats_mean (l : List ℚ) :
    (fileStats l).mean = if l.isEmpty then 0 else npMean l := rfl

/-- Std projection of the aggregator. -/
theorem fileStats_std (l : List ℚ) :
    (fileStats l).std = if l.isEmpty then (0 : ℝ) else npStd l := rfl

/-- CV projection of the aggregator. -/
theorem fileStats_cv (l : List ℚ) :
    (fileStats l).cv =
      if (((fileStats l).mean : ℚ) : ℝ) > 0
      then (fileStats l).std / (((fileStats l).mean : ℚ) : ℝ) * 100
      else 0 := rfl

/-- C4: on a non-empty sample the aggregator returns the arithmetic mean
(mean times N is the sum), the population standard deviation (square root
of the squared deviations divided by N, not N-1), and a coefficient of
variation equal to std/mean*100 when the mean is positive, 0 when the mean
is 0, and never negative; on the sample [0.2, 0.4, 0.6] the mean is 0.4,
the std rounds at 4 decimal places to 0.1633 and the CV percentage rounds
at 2 decimal places to 40.82. -/
theorem c4_file_aggregator :
    (∀ l : List ℚ, l ≠ [] →
      (fileStats l).count = l.length ∧
      (fileStats l).mean * (l.length : ℚ) = l.sum ∧
      (fileStats l).std =
        Real.sqrt ((((l.map (fun x => (x - npMean l) ^ 2)).sum / (l.length : ℚ)) : ℚ) : ℝ) ∧
      (0 < (fileStats l).mean →
        (fileStats l).cv = (fileStats l).std / (((fileStats l).mean : ℚ) : ℝ) * 100) ∧
      ((fileStats l).mean = 0 → (fileStats l).cv = 0)) ∧
    (∀ l : List ℚ, 0 ≤ (fileStats l).cv) ∧
    ((fileStats [1/5, 2/5, 3/5]).mean = 2/5 ∧
      round ((fileStats [1/5, 2/5, 3/5]).std * 10000) = 1633 ∧
      round ((fileStats [1/5, 2/5, 3/5]).cv * 100) = 4082) := by
  have hstd_nonneg : ∀ l : List ℚ, 0 ≤ (fileStats l).std := by
    intro l
    rw [fileStats_std]
    by_cases h : l.isEmpty <;> simp [h, npStd, Real.sqrt_nonneg]
  refine ⟨fun l h => ?_, fun l => ?_, ?_⟩
  · have hempty : ¬ (l.isEmpty = true) := by simp [List.isEmpty_iff, h]
    have hlen : (l.length : ℚ) ≠ 0 :=
      Nat.cast_ne_zero.mpr (fun h0 => h (List.length_eq_zero.mp h0))
    refine ⟨rfl, ?_, ?_, fun hm => ?_, fun hm => ?_⟩
    · rw [fileStats_mean, if_neg hempty, npMean, div_mul_cancel₀ _ hlen]
    · rw [fileStats_std, if_neg hempty]
      rfl
    · rw [fileStats_cv, if_pos (by exact_mod_cast hm)]
    · rw [fileStats_cv, if_neg]
      rw [hm]
      norm_num
  · rw [fileStats_cv]
    by_cases h : (((fileStats l).mean : ℚ) : ℝ) > 0
    · rw [if_pos h]
      exact mul_nonneg (div_nonneg (hstd_nonneg l) (le_of_lt h)) (by norm_num)
    · rw [if_neg h]
  · have hmean : npMean [1/5, 2/5, 3/5] = 2/5 := by norm_num [npMean]
    have hvar : npVar [1/5, 2/5, 3/5] = 2/75 := by norm_num [npVar, hmean]
    have hm : (fileStats [1/5, 2/5, 3/5]).mean = 2/5 := by
      rw [fileStats_mean, if_neg (by simp), hmean]
    have hs : (fileStats [1/5, 2/5, 3/5]).std = Real.sqrt ((2 : ℝ)/75) := by
      rw [fileStats_std, if_neg (by simp), npStd, hvar]
      norm_num
    have h0 : (0 : ℝ) ≤ 2/75 := by norm_num
    have hsq := Real.sq_sqrt h0
    have hnn := Real.sqrt_nonneg ((2 : ℝ)/75)
    refine ⟨hm, ?_, ?_⟩
    · rw [hs]
      have hlo : (1632.5 : ℝ) ≤ Real.sqrt (2/75) * 10000 := by nlinarith
      have hhi : Real.sqrt ((2 : ℝ)/75) * 10000 < 1633.5 := by nlinarith
      rw [round_eq, Int.floor_eq_iff]
      constructor
      · push_cast
        linarith
      · push_cast
        linarith
    · have hcv : (fileStats [1/5, 2/5, 3/5]).cv = Real.sqrt ((2 : ℝ)/75) * 250 := by
        rw [fileStats_cv, hm, hs, if_pos (by norm_num)]
        push_cast
        ring
      rw [hcv]
      have heq : Real.sqrt ((2 : ℝ)/75) * 250 * 100 = Real.sqrt ((2 : ℝ)/75) * 25000 := by
        ring
      rw [heq]
      have hlo : (4081.5 : ℝ) ≤ Real.sqrt (2/75) * 25000 := by nlinarith
      have hhi : Real.sqrt ((2 : ℝ)/75) * 25000 < 4082.5 := by nlinarith
      rw [round_eq, Int.floor_eq_iff]
      constructor
      · push_cast
        linarith
      · push_cast
        linarith

/-- Witness for C4 at the one-sample list [1]: count 1, nonnegative CV,
and the positive-mean CV formula. -/
theorem c4_file_aggregator_witness :
    (fileStats [(1 : ℚ)]).count = [(1 : ℚ)].length ∧
    (0 : ℝ) ≤ (fileStats [(1 : ℚ)]).cv ∧
    (fileStats [(1 : ℚ)]).cv =
      (fileStats [(1 : ℚ)]).std / (((fileStats [(1 : ℚ)]).mean : ℚ) : ℝ) * 100 :=
  ⟨(c4_file_aggregator.1 [(1 : ℚ)] (by simp)).1,
   c4_file_aggregator.2.1 [(1 : ℚ)],
   (c4_file_aggregator.1 [(1 : ℚ)] (by simp)).2.2.2.1 (by simp [fileStats_mean, npMean])⟩

/-! ## C8 -/

/-- Count projection of the perplexity/loss statistics. -/
theorem perp_count (l : List ℚ) :
    (calculate_statistics_file l).count = min l.length 1000 := rfl

/-- Mean projection of the perplexity/loss statistics. -/
theorem perp_mean (l : List ℚ) :
    (calculate_statistics_file l).mean =
      if min l.length 1000 > 0 then npMean (l.take 1000) else 0 := rfl

/-- Std projection of the perplexity/loss statistics. -/
theorem perp_std (l : List ℚ) :
    (calculate_statistics_file l).std =
      if min l.length 1000 > 0 then npStd (l.take 1000) else 0 := rfl

/-- A series of 1001 samples: a thousand zeros followed by a 2. -/
def overlongSamples : List ℚ := List.replicate 1000 0 ++ [2]

/-- C8 counterexample: on 1001 samples the statistics are computed over the
first 1000 entries only (`data[:1000]`): the reported count is not the
sample count, and the reported mean 0 differs from the full-sample mean
2/1001 — so the statistics are not always computed over the full sequence. -/
theorem c8_counterexample :
    (calculate_statistics_file overlongSamples).count ≠ overlongSamples.length ∧
    (calculate_statistics_file overlongSamples).mean = 0 ∧
    npMean overlongSamples = 2/1001 := by
  have hlen : overlongSamples.length = 1001 := by
    show (List.replicate 1000 (0 : ℚ) ++ [(2 : ℚ)]).length = 1001
    rw [List.length_append, List.length_replicate]
    rfl
  have htake : overlongSamples.take 1000 = List.replicate 1000 (0 : ℚ) := by
    have h := List.take_left (List.replicate 1000 (0 : ℚ)) [2]
    rw [List.length_replicate] at h
    exact h
  refine ⟨?_, ?_, ?_⟩
  · rw [perp_count, hlen]
    norm_num
  · rw [perp_mean, htake, hlen]
    rw [if_pos (by norm_num)]
    rw [npMean, List.sum_replicate, List.length_replicate]
    norm_num
  · have hsum : overlongSamples.sum = 2 := by
      show (List.replicate 1000 (0 : ℚ) ++ [(2 : ℚ)]).sum = 2
      rw [List.sum_append, List.sum_replicate]
      norm_num
    rw [npMean, hsum, hlen]
    norm_num

/-- C8 amended: the statistics are computed over the first min(N, 1000)
samples; whenever the file has at most 1000 responses — as in this corpus,
whose files hold 100 or 1000 responses — the count is the full sample count
and the mean and std are those of the full sample. -/
theorem c8_truncated_statistics :
    ∀ l : List ℚ, l.length ≤ 1000 →
      (calculate_statistics_file l).count = l.length ∧
      (l ≠ [] →
        (calculate_statistics_file l).mean = npMean l ∧
        (calculate_statistics_file l).std = npStd l) := by
  intro l hl
  have htake : l.take 1000 = l := List.take_of_length_le hl
  have hmin : min l.length 1000 = l.length := min_eq_left hl
  refine ⟨by rw [perp_count, hmin], fun hne => ?_⟩
  have hpos : min l.length 1000 > 0 := by
    rw [hmin]
    exact List.length_pos.mpr hne
  constructor
  · rw [perp_mean, if_pos hpos, htake]
  · rw [perp_std, if_pos hpos, htake]

/-- Witness for C8 amended at the one-sample list [3]. -/
theorem c8_truncated_statistics_witness :
    (calculate_statistics_file [(3 : ℚ)]).count = [(3 : ℚ)].length ∧
    (calculate_statistics_file [(3 : ℚ)]).mean = npMean [(3 : ℚ)] :=
  ⟨(c8_truncated_statistics [(3 : ℚ)] (by simp)).1,
   ((c8_truncated_statistics [(3 : ℚ)] (by simp)).2 (by simp)).1⟩

/-! ## C6 -/

/-- A directory listing of three .xml files whose middle file fails to
parse. -/
def c6Batch : List (String × Option (List Response)) :=
  [("a.xml", some []), ("b.xml", none), ("c.xml", some [])]

/-- C6 counterexample: with no try/except in the batch loop, the first
unparseable file raises out of the whole loop — the batch over
a.xml/b.xml/c.xml ends in the error for b.xml and never yields a row list,
instead of skipping b.xml and completing the pass over a.xml and c.xml. -/
theorem c6_counterexample :
    process_all_files c6Batch = .error "b.xml" ∧
    ¬ ∃ rows, process_all_files c6Batch = .ok rows := by
  have h : process_all_files c6Batch = .error "b.xml" := by rfl
  refine ⟨h, ?_⟩
  rintro ⟨rows, hr⟩
  rw [h] at hr
  cases hr

/-- C6 amended: the batch loop completes a full pass — one row per .xml
file, in listing order — exactly when every .xml file in the listing is
readable; the first unreadable .xml file aborts the whole batch with that
file's error, dropping the remaining files. -/
theorem c6_batch_abort :
    (∀ batch : List (String × Option (List Response)),
      (∀ f ∈ batch, endsWithXml f.1 = true → f.2.isSome = true) →
      ∃ rows, process_all_files batch = .ok rows ∧
        rows.map Prod.fst = (batch.filter (fun f => endsWithXml f.1)).map Prod.fst) ∧
    (∀ (pre post : List (String × Option (List Response))) (name : String),
      (∀ f ∈ pre, endsWithXml f.1 = true → f.2.isSome = true) →
      endsWithXml name = true →
      process_all_files (pre ++ (name, none) :: post) = .error name) := by
  constructor
  · intro batch hall
    induction batch with
    | nil => exact ⟨[], rfl, rfl⟩
    | cons f rest ih =>
      obtain ⟨rows, hrows, hnames⟩ := ih (fun g hg => hall g (List.mem_cons_of_mem f hg))
      rcases f with ⟨name, dat⟩
      rcases dat with _ | resps
      · have hnx : ¬ endsWithXml name = true := by
          intro hx
          cases hall (name, none) (by simp) hx
        refine ⟨rows, ?_, ?_⟩
        · show (if endsWithXml name then Except.error name
                else process_all_files rest) = Except.ok rows
          rw [if_neg hnx]
          exact hrows
        · rw [hnames, List.filter_cons, if_neg (by simpa using hnx)]
      · by_cases hx : endsWithXml name = true
        · refine ⟨(name, process_xml_file_plural resps) :: rows, ?_, ?_⟩
          · show (if endsWithXml name then
                  match process_all_files rest with
                  | .ok rows => Except.ok ((name, process_xml_file_plural resps) :: rows)
                  | .error e => Except.error e
                else process_all_files rest) =
              Except.ok ((name, process_xml_file_plural resps) :: rows)
            rw [if_pos hx, hrows]
          · rw [List.map_cons, hnames, List.filter_cons, if_pos (by simpa using hx)]
            rfl
        · refine ⟨rows, ?_, ?_⟩
          · show (if endsWithXml name then
                  match process_all_files rest with
                  | .ok rows => Except.ok ((name, process_xml_file_plural resps) :: rows)
                  | .error e => Except.error e
                else process_all_files rest) = Except.ok rows
            rw [if_neg hx]
            exact hrows
          · rw [hnames, List.filter_cons, if_neg (by simpa using hx)]
  · intro pre post name hall hx
    induction pre with
    | nil =>
      rw [List.nil_append]
      show (if endsWithXml name then Except.error name
            else process_all_files post) = Except.error name
      rw [if_pos hx]
    | cons f rest ih =>
      have hrest := ih (fun g hg => hall g (List.mem_cons_of_mem f hg))
      rcases f with ⟨n, dat⟩
      rcases dat with _ | resps
      · have hnx : ¬ endsWithXml n = true := by
          intro hc
          cases hall (n, none) (by simp) hc
        rw [List.cons_append]
        show (if endsWithXml n then Except.error n
              else process_all_files (rest ++ (name, none) :: post)) = Except.error name
        rw [if_neg hnx]
        exact hrest
      · rw [List.cons_append]
        show (if endsWithXml n then
              match process_all_files (rest ++ (name, none) :: post) with
              | .ok rows => Except.ok ((n, process_xml_file_plural resps) :: rows)
              | .error e => Except.error e
            else process_all_files (rest ++ (name, none) :: post)) = Except.error name
        by_cases hn : endsWithXml n = true
        · rw [if_pos hn, hrest]
        · rw [if_neg hn]
          exact hrest

/-- Witness for C6 amended: an all-readable one-file batch yields its one
row, and a batch whose only file is unreadable errors with that file. -/
theorem c6_batch_abort_witness :
    (∃ rows, process_all_files [("a.xml", (some [] : Option (List Response)))] = .ok rows ∧
      rows.map Prod.fst =
        ([("a.xml", (some [] : Option (List Response)))].filter
          (fun f => endsWithXml f.1)).map Prod.fst) ∧
    process_all_files [("b.xml", (none : Option (List Response)))] = .error "b.xml" :=
  ⟨c6_batch_abort.1 [("a.xml", some [])] (by decide),
   c6_batch_abort.2 [] [] "b.xml" (by simp) (by decide)⟩
